import Mathlib

set_option maxHeartbeats 1000000

/-!
Verification of the radio-station browser client (React frontend).

The development shallowly embeds the logic of the three incremental UI
drafts of the application: the two earlier drafts in
src/frontend/src/App.js and the final draft in src/unnamed/part_000.
Rendering is out of scope; we embed the state and the handlers
(fetchStations, performSearch, the debounced search effect, playStation,
toggleMute, handleVolumeChange) together with the filter predicates.
-/

namespace RadioStation

/-! ## Data model

A Station record as produced by the backend catalog endpoints.  The
`tags` field may be absent (undefined in JS), hence Option. -/

structure Station where
  uuid : String
  name : String
  country : String
  language : String
  tags : Option String
  url : String
  bitrate : Nat
deriving DecidableEq, Repr

/-! ## String primitives

JS String.prototype.includes, embedded on character lists, and the
case folding used by toLowerCase (Lean String.toLower; the stations in
scope are ASCII). -/

/-- Embeds JS l.includes(sub) on character lists: true iff sub occurs
as a contiguous substring of l (the empty list occurs in every list). -/
def listContains : List Char → List Char → Bool
  | [], sub => sub.isEmpty
  | c :: tl, sub => sub.isPrefixOf (c :: tl) || listContains tl sub

/-- JS s.includes(sub) on strings. -/
def strContains (s sub : String) : Bool :=
  listContains s.toList sub.toList

/-- Embeds JS toLowerCase character-wise (the stations and queries in
scope are ASCII, where this agrees with the platform case folding). -/
def strToLower (s : String) : String :=
  String.mk (s.toList.map Char.toLower)

/-- Embeds JS String.prototype.trim: strip leading and trailing
whitespace. -/
def strTrim (s : String) : String :=
  String.mk
    (((s.toList.dropWhile Char.isWhitespace).reverse.dropWhile
        Char.isWhitespace).reverse)

/-! ## Frequency regex of draft 2

Draft 2 in src/frontend/src/App.js tests the raw search term against
the regex (\d{2,3}\.?\d*)\s*(fm|am|khz|mhz)? with flag i and, when it
matches, keeps capture group 1.  The suffix \s*(fm|am|khz|mhz)? is
nullable, so the regex matches at a position iff \d{2,3} does, i.e.
iff two consecutive digits start there, and no backtracking into the
group is ever forced; group 1 is therefore the greedy parse
\d{2,3} then \.? then \d* at the leftmost such position. -/

/-- Greedy parse of capture group (\d{2,3}\.?\d*) anchored at the head
of the character list; none when fewer than two digits start here. -/
def freqGroupAt : List Char → Option (List Char)
  | c1 :: c2 :: rest =>
    if c1.isDigit && c2.isDigit then
      let p3 : List Char × List Char :=
        match rest with
        | c3 :: r3 => if c3.isDigit then ([c3], r3) else ([], c3 :: r3)
        | [] => ([], [])
      let pDot : List Char × List Char :=
        match p3.2 with
        | c4 :: r4 => if c4 = '.' then (['.'], r4) else ([], c4 :: r4)
        | [] => ([], [])
      some ([c1, c2] ++ p3.1 ++ pDot.1 ++ pDot.2.takeWhile Char.isDigit)
    else none
  | _ => none

/-- Leftmost match: JS regex search tries successive start positions. -/
def findFreqGroup : List Char → Option (List Char)
  | [] => none
  | c :: cs =>
    match freqGroupAt (c :: cs) with
    | some g => some g
    | none => findFreqGroup cs

/-- Embeds searchTerm.match(frequencyPattern) of draft 2, returning
capture group 1 of the first match (the frequency substring). -/
def extractFrequency (q : String) : Option String :=
  (findFreqGroup q.toList).map fun g => String.mk g

/-! ## Filter predicates of the three drafts -/

/-- Per-station predicate of filteredStations in draft 1
(src/frontend/src/App.js lines 85 to 88): name or country contains the
search term, case-insensitively. -/
def draft1Match (searchTerm : String) (station : Station) : Bool :=
  strContains (strToLower station.name) (strToLower searchTerm) ||
  strContains (strToLower station.country) (strToLower searchTerm)

/-- Per-station predicate of filteredStations in draft 2
(src/frontend/src/App.js lines 307 to 327): if the raw search term
contains a frequency-like token, match only on the name containing the
captured frequency; otherwise match name, country or tags
case-insensitively.  Absent tags behave as the empty string. -/
def draft2Match (searchTerm : String) (station : Station) : Bool :=
  let searchLower := strToLower searchTerm
  let stationName := strToLower station.name
  let stationCountry := strToLower station.country
  let stationTags := strToLower (station.tags.getD "")
  match extractFrequency searchTerm with
  | some frequency => strContains stationName frequency
  | none =>
    strContains stationName searchLower ||
    strContains stationCountry searchLower ||
    strContains stationTags searchLower

/-- JS truthiness of station.tags in the guard
station.tags && station.tags.toLowerCase().includes(...): undefined and
the empty string are falsy. -/
def tagsTruthy : Option String → Bool
  | none => false
  | some t => !(t == "")

/-- Fallback client-side filter of performSearch in src/unnamed/part_000
(lines 63 to 67), used when the search request fails: name, country or
(truthy) tags contains the query, case-insensitively. -/
def fallbackMatch (query : String) (station : Station) : Bool :=
  strContains (strToLower station.name) (strToLower query) ||
  strContains (strToLower station.country) (strToLower query) ||
  (tagsTruthy station.tags &&
    strContains (strToLower (station.tags.getD "")) (strToLower query))

/-- fetchStations of draft 1: data.slice(0, 50). -/
def fetchStationsDraft1 (data : List Station) : List Station :=
  data.take 50

/-- fetchStations of draft 2: data.slice(0, 60). -/
def fetchStationsDraft2 (data : List Station) : List Station :=
  data.take 60

/-- Displayed list of draft 1: stations.filter over draft1Match. -/
def filteredStationsDraft1 (q : String) (stations : List Station) : List Station :=
  stations.filter (draft1Match q)

/-- Displayed list of draft 2: stations.filter over draft2Match. -/
def filteredStationsDraft2 (q : String) (stations : List Station) : List Station :=
  stations.filter (draft2Match q)

/-! ## Playback session (playStation, toggleMute, handleVolumeChange)

The audio element is modelled by its observable fields; it exists for
the whole life of the component (the audio tag is always rendered), so
the audioRef.current guards are always taken.  srcSetCount is a ghost
counter incremented exactly when the code assigns audioRef.current.src,
used to observe resource (re)acquisition.  The asynchronous
audioRef.current.play() either resolves or rejects; the oracle
playSucceeds selects which, and the rejection lands in the catch block
exactly as in the source. -/

structure AudioElement where
  src : Option String
  volume : Rat
  paused : Bool
deriving DecidableEq, Repr

structure PlayerState where
  currentStation : Option Station
  isPlaying : Bool
  volume : Rat
  isMuted : Bool
  audio : AudioElement
  srcSetCount : Nat
deriving DecidableEq, Repr

/-- Default backend URL of the source (process.env fallback). -/
def backendUrl : String := "http://localhost:8001"

/-- Modelled from the spec: encodeURIComponent is an external platform
primitive; the spec directs that the proxy address be treated as an
opaque URL transform, so the encoder is embedded as the identity
transform (no claim inspects the encoded text). -/
def encodeURIComponentOpaque (s : String) : String := s

/-- Proxy address built in playStation: backendUrl/api/stream/encoded-url. -/
def proxyUrl (streamUrl : String) : String :=
  backendUrl ++ "/api/stream/" ++ encodeURIComponentOpaque streamUrl

/-- Guard currentStation?.uuid === station.uuid && isPlaying of playStation. -/
def samePlaying (s : PlayerState) (station : Station) : Bool :=
  (match s.currentStation with
   | some c => c.uuid == station.uuid
   | none => false) && s.isPlaying

/-- playStation of src/unnamed/part_000 (lines 73 to 100).  When the
guard holds it pauses and clears isPlaying; otherwise it pauses the
element, selects the station, marks playing, assigns a fresh proxy src
and the volume, and awaits play(), whose rejection is caught by setting
isPlaying to false. -/
def playStation (playSucceeds : Bool) (station : Station) (s : PlayerState) : PlayerState :=
  if samePlaying s station then
    { s with audio := { s.audio with paused := true }, isPlaying := false }
  else
    let s1 := { s with audio := { s.audio with paused := true } }
    let s2 := { s1 with currentStation := some station, isPlaying := true }
    let s3 := { s2 with
      audio := { s2.audio with
        src := some (proxyUrl station.url),
        volume := if s2.isMuted then 0 else s2.volume },
      srcSetCount := s2.srcSetCount + 1 }
    if playSucceeds then { s3 with audio := { s3.audio with paused := false } }
    else { s3 with isPlaying := false }

/-- toggleMute of src/unnamed/part_000 (lines 102 to 112). -/
def toggleMute (s : PlayerState) : PlayerState :=
  if s.isMuted then
    { s with audio := { s.audio with volume := s.volume }, isMuted := false }
  else
    { s with audio := { s.audio with volume := 0 }, isMuted := true }

/-- handleVolumeChange of src/unnamed/part_000 (lines 114 to 120):
store the new level, and push it to the element only when not muted. -/
def handleVolumeChange (newVolume : Rat) (s : PlayerState) : PlayerState :=
  let s1 := { s with volume := newVolume }
  if !s1.isMuted then { s1 with audio := { s1.audio with volume := newVolume } }
  else s1

/-- Abstract playback state of the spec, read off the concrete state. -/
inductive PlaybackView where
  | idle
  | playing (uuid : String)
  | paused (uuid : String)
deriving DecidableEq, Repr

def playbackView (s : PlayerState) : PlaybackView :=
  match s.currentStation with
  | none => .idle
  | some st => if s.isPlaying then .playing st.uuid else .paused st.uuid

/-- Initial component state: no station, not playing, volume 0.7, not
muted; the bare audio element has no source and default volume 1. -/
def initPlayer : PlayerState :=
  { currentStation := none
    isPlaying := false
    volume := 7/10
    isMuted := false
    audio := { src := none, volume := 1, paused := true }
    srcSetCount := 0 }

/-! ## Concrete sample stations used in witnesses and counterexamples -/

def stA : Station :=
  { uuid := "st-a", name := "Alpha 92.3 FM", country := "USA",
    language := "English", tags := some "jazz", url := "http://stream.a",
    bitrate := 128 }

def stB : Station :=
  { uuid := "st-b", name := "Beta News", country := "Germany",
    language := "German", tags := some "news", url := "http://stream.b",
    bitrate := 64 }

/-- Station whose name contains the bare frequency 92.3 but none of
whose fields contains the full query 92.3 fm. -/
def stRadio923 : Station :=
  { uuid := "st-r", name := "Radio 92.3", country := "USA",
    language := "English", tags := some "talk", url := "http://stream.r",
    bitrate := 96 }

/-- Station whose name is frequency-free but whose country contains
92.3 fm as a substring. -/
def stFreqCountry : Station :=
  { uuid := "st-f", name := "Foo", country := "92.3 FM Land",
    language := "English", tags := none, url := "http://stream.f",
    bitrate := 0 }

/-! ## Claims about the playback session and the filters -/

/-- C4 counterexample: the claimed frequency dichotomy fails for the
final draft's fallback filter (performSearch, part_000 lines 63 to
67).  The query 92.3 FM does capture the frequency 92.3, yet
fallbackMatch rejects the station named Radio 92.3, whose name
contains that frequency (the claimed policy requires a match), and
accepts a station whose name is frequency-free but whose country
contains 92.3 fm (the claimed policy forbids checking any field other
than the name). -/
theorem c4_counterexample :
    extractFrequency "92.3 FM" = some "92.3" ∧
    strContains (strToLower stRadio923.name) "92.3" = true ∧
    fallbackMatch "92.3 FM" stRadio923 = false ∧
    strContains (strToLower stFreqCountry.name) "92.3" = false ∧
    fallbackMatch "92.3 FM" stFreqCountry = true := by
  decide

/-- C4 amended: the frequency dichotomy is implemented only by the
draft 2 filter: there, whenever the raw query contains a
frequency-like token, a station matches iff its (case-folded) name
contains the captured frequency, no other field being checked, and
otherwise a station matches iff name, country or tags contains the
query case-insensitively; in particular 92.3 and 92.3 FM capture the
frequency 92.3 and match exactly the stations whose name contains
92.3, while jazz captures no frequency and matches on name, country
or tags.  The final draft's fallback filter has no frequency branch:
for every query, frequency-like or not, a station matches iff its
name, country or (truthy) tags contains the whole query as a
case-insensitive substring, so the query 92.3 FM is matched against
the substring 92.3 fm in all three fields. -/
theorem c4_filter_policy_amended (station : Station) (q : String) :
    (∀ f, extractFrequency q = some f →
        draft2Match q station = strContains (strToLower station.name) f) ∧
    (extractFrequency q = none →
        draft2Match q station =
          (strContains (strToLower station.name) (strToLower q) ||
           strContains (strToLower station.country) (strToLower q) ||
           strContains (strToLower (station.tags.getD "")) (strToLower q))) ∧
    extractFrequency "92.3" = some "92.3" ∧
    extractFrequency "92.3 FM" = some "92.3" ∧
    extractFrequency "jazz" = none ∧
    draft2Match "92.3" station = strContains (strToLower station.name) "92.3" ∧
    draft2Match "92.3 FM" station = strContains (strToLower station.name) "92.3" ∧
    draft2Match "jazz" station =
      (strContains (strToLower station.name) "jazz" ||
       strContains (strToLower station.country) "jazz" ||
       strContains (strToLower (station.tags.getD "")) "jazz") ∧
    fallbackMatch q station =
      (strContains (strToLower station.name) (strToLower q) ||
       strContains (strToLower station.country) (strToLower q) ||
       (tagsTruthy station.tags &&
         strContains (strToLower (station.tags.getD "")) (strToLower q))) ∧
    fallbackMatch "92.3 FM" station =
      (strContains (strToLower station.name) "92.3 fm" ||
       strContains (strToLower station.country) "92.3 fm" ||
       (tagsTruthy station.tags &&
         strContains (strToLower (station.tags.getD "")) "92.3 fm")) := by
  refine ⟨?_, ?_, by decide, by decide, by decide, ?_, ?_, ?_, ?_, ?_⟩
  · intro f h
    simp only [draft2Match, h]
  · intro h
    simp only [draft2Match, h]
  · rfl
  · rfl
  · rfl
  · rfl
  · rfl

/-- Witness for c4_filter_policy_amended: instantiated at the sample
station, with the hypotheses of the two conditional conjuncts
discharged at the queries 92.3 and jazz. -/
theorem c4_filter_policy_amended_witness :
    (extractFrequency "92.3" = some "92.3" ∧
      draft2Match "92.3" stA = strContains (strToLower stA.name) "92.3") ∧
    (extractFrequency "jazz" = none ∧
      draft2Match "jazz" stA =
        (strContains (strToLower stA.name) "jazz" ||
         strContains (strToLower stA.country) "jazz" ||
         strContains (strToLower (stA.tags.getD "")) "jazz")) :=
  ⟨⟨by decide, (c4_filter_policy_amended stA "92.3").1 "92.3" (by decide)⟩,
   ⟨by decide, (c4_filter_policy_amended stA "jazz").2.1 (by decide)⟩⟩

/-- C10: drafts 1 and 2 store only the first 50, respectively 60,
stations of the catalog response, so every station those drafts ever
display or match by search lies among that truncated prefix. -/
theorem c10_draft_truncation (data : List Station) (q : String) (st : Station) :
    (fetchStationsDraft1 data).length ≤ 50 ∧
    (fetchStationsDraft2 data).length ≤ 60 ∧
    (st ∈ filteredStationsDraft1 q (fetchStationsDraft1 data) →
      st ∈ data.take 50) ∧
    (st ∈ filteredStationsDraft2 q (fetchStationsDraft2 data) →
      st ∈ data.take 60) := by
  refine ⟨?_, ?_, ?_, ?_⟩
  · exact List.length_take_le 50 data
  · exact List.length_take_le 60 data
  · intro h
    exact List.mem_of_mem_filter h
  · intro h
    exact List.mem_of_mem_filter h

/-- Witness for c10_draft_truncation: the sample station matched by the
query usa in both drafts indeed lies in the truncated prefix. -/
theorem c10_draft_truncation_witness :
    stA ∈ List.take 50 [stA, stB] ∧ stA ∈ List.take 60 [stA, stB] :=
  ⟨(c10_draft_truncation [stA, stB] "usa" stA).2.2.1 (by decide),
   (c10_draft_truncation [stA, stB] "usa" stA).2.2.2 (by decide)⟩

/-- C2 counterexample: from Idle, three successful select calls on the
same station do run Idle, Playing, Paused, Playing, but the third call
assigns the audio source again (the ghost srcSetCount rises from 1 to
2 on the third call), refuting that the third call resumes without
setting a new source. -/
theorem c2_counterexample :
    playbackView (playStation true stA initPlayer) = .playing "st-a" ∧
    playbackView (playStation true stA (playStation true stA initPlayer)) =
      .paused "st-a" ∧
    playbackView (playStation true stA (playStation true stA
      (playStation true stA initPlayer))) = .playing "st-a" ∧
    (playStation true stA (playStation true stA initPlayer)).srcSetCount = 1 ∧
    (playStation true stA (playStation true stA
      (playStation true stA initPlayer))).srcSetCount = 2 := by
  decide

/-- C2 amended: from any Idle state, three successful select calls on
station a run Idle, Playing(a), Paused(a), Playing(a), and the third
call re-assigns the audio source (one more src assignment), i.e. it
re-acquires instead of resuming the held resource. -/
theorem c2_select_three_times (a : Station) (s0 : PlayerState)
    (h1 : s0.currentStation = none) (h2 : s0.isPlaying = false) :
    playbackView (playStation true a s0) = .playing a.uuid ∧
    playbackView (playStation true a (playStation true a s0)) =
      .paused a.uuid ∧
    playbackView (playStation true a (playStation true a
      (playStation true a s0))) = .playing a.uuid ∧
    (playStation true a (playStation true a
      (playStation true a s0))).srcSetCount =
      (playStation true a (playStation true a s0)).srcSetCount + 1 := by
  simp [playStation, samePlaying, playbackView, h1, h2]

/-- Witness for c2_select_three_times at the sample station and the
initial component state. -/
theorem c2_select_three_times_witness :
    playbackView (playStation true stA initPlayer) = .playing stA.uuid ∧
    playbackView (playStation true stA (playStation true stA initPlayer)) =
      .paused stA.uuid ∧
    playbackView (playStation true stA (playStation true stA
      (playStation true stA initPlayer))) = .playing stA.uuid ∧
    (playStation true stA (playStation true stA
      (playStation true stA initPlayer))).srcSetCount =
      (playStation true stA (playStation true stA initPlayer)).srcSetCount + 1 :=
  c2_select_three_times stA initPlayer rfl rfl

/-- C3 counterexample: when play() rejects during select of the sample
station from the initial state, the catch block only clears isPlaying;
the station stays selected, so the observable state is Paused, not
Idle, and nothing beyond a console log reports the failure. -/
theorem c3_counterexample :
    playbackView (playStation false stA initPlayer) = .paused "st-a" ∧
    playbackView (playStation false stA initPlayer) ≠ .idle ∧
    (playStation false stA initPlayer).currentStation = some stA := by
  decide

/-- C3 amended: when acquiring or starting the resource fails during a
select that is not the pause shortcut, the session keeps the selected
station and merely clears isPlaying: the resulting state is Paused(a)
rather than Idle, and the failure is only logged, not surfaced as a
distinct PlaybackFailed condition. -/
theorem c3_failure_keeps_selection (a : Station) (s0 : PlayerState)
    (h : samePlaying s0 a = false) :
    (playStation false a s0).isPlaying = false ∧
    (playStation false a s0).currentStation = some a ∧
    playbackView (playStation false a s0) = .paused a.uuid := by
  simp [playStation, playbackView, h]

/-- Witness for c3_failure_keeps_selection at the sample station and
the initial component state. -/
theorem c3_failure_keeps_selection_witness :
    (playStation false stA initPlayer).isPlaying = false ∧
    (playStation false stA initPlayer).currentStation = some stA ∧
    playbackView (playStation false stA initPlayer) = .paused stA.uuid :=
  c3_failure_keeps_selection stA initPlayer (by decide)

/-- C8: starting unmuted, the sequence setVolume v, mute, unmute leaves
the stored level at v, restores the element output level to exactly v,
and ends unmuted; muting never alters the stored volume level. -/
theorem c8_mute_unmute_restores (s : PlayerState) (v : Rat)
    (h : s.isMuted = false) :
    (toggleMute (toggleMute (handleVolumeChange v s))).volume = v ∧
    (toggleMute (toggleMute (handleVolumeChange v s))).audio.volume = v ∧
    (toggleMute (toggleMute (handleVolumeChange v s))).isMuted = false ∧
    (toggleMute (handleVolumeChange v s)).volume = v := by
  simp [handleVolumeChange, toggleMute, h]

/-- Witness for c8_mute_unmute_restores at v = 0.4 from the initial
component state. -/
theorem c8_mute_unmute_restores_witness :
    (toggleMute (toggleMute (handleVolumeChange (2/5) initPlayer))).volume = 2/5 ∧
    (toggleMute (toggleMute (handleVolumeChange (2/5) initPlayer))).audio.volume = 2/5 ∧
    (toggleMute (toggleMute (handleVolumeChange (2/5) initPlayer))).isMuted = false ∧
    (toggleMute (handleVolumeChange (2/5) initPlayer)).volume = 2/5 :=
  c8_mute_unmute_restores initPlayer (2/5) rfl

/-! ## C9: the mute and volume invariant -/

/-- Whenever the audio element holds a source, its output level is 0
if muted and the stored volume level otherwise. -/
def volumeInvariant (s : PlayerState) : Prop :=
  s.audio.src ≠ none → s.audio.volume = (if s.isMuted then 0 else s.volume)

/-- The operations that touch audio output. -/
inductive PlayerOp where
  | select (playSucceeds : Bool) (station : Station)
  | muteToggle
  | volumeChange (v : Rat)

def playerStep (s : PlayerState) : PlayerOp → PlayerState
  | .select ok st => playStation ok st s
  | .muteToggle => toggleMute s
  | .volumeChange v => handleVolumeChange v s

/-- C9: every operation touching audio output preserves the invariant
that an active element plays at 0 when muted and at the stored level
otherwise; moreover a volume change while muted stores the new level,
leaves the element output untouched, and the following unmute applies
the newly stored level. -/
theorem c9_volume_output_invariant (s : PlayerState) (op : PlayerOp) (v : Rat)
    (h : volumeInvariant s) :
    volumeInvariant (playerStep s op) ∧
    (s.isMuted = true →
      (handleVolumeChange v s).volume = v ∧
      (handleVolumeChange v s).audio.volume = s.audio.volume ∧
      (toggleMute (handleVolumeChange v s)).audio.volume = v ∧
      (toggleMute (handleVolumeChange v s)).isMuted = false) := by
  constructor
  · cases op with
    | select ok st =>
      simp only [playerStep, playStation]
      by_cases hsp : samePlaying s st
      · simp only [hsp, if_true, volumeInvariant] at h ⊢
        exact h
      · simp only [hsp, if_false, volumeInvariant] at h ⊢
        cases ok <;> simp
    | muteToggle =>
      simp only [playerStep, toggleMute, volumeInvariant] at h ⊢
      by_cases hm : s.isMuted <;> simp [hm]
    | volumeChange w =>
      simp only [playerStep, handleVolumeChange, volumeInvariant] at h ⊢
      by_cases hm : s.isMuted
      · simp [hm] at h ⊢
        exact h
      · simp [hm] at h ⊢
  · intro hm
    simp [handleVolumeChange, toggleMute, hm]

/-- Witness for c9_volume_output_invariant: the invariant holds of the
initial state and is preserved by a successful select of the sample
station; the muted clauses are exercised from the muted initial state. -/
theorem c9_volume_output_invariant_witness :
    volumeInvariant (playerStep initPlayer (.select true stA)) ∧
    volumeInvariant (playerStep { initPlayer with isMuted := true } .muteToggle) ∧
    ({ initPlayer with isMuted := true }.isMuted = true →
      (handleVolumeChange (2/5) { initPlayer with isMuted := true }).volume = 2/5 ∧
      (handleVolumeChange (2/5) { initPlayer with isMuted := true }).audio.volume =
        { initPlayer with isMuted := true }.audio.volume ∧
      (toggleMute (handleVolumeChange (2/5)
        { initPlayer with isMuted := true })).audio.volume = 2/5 ∧
      (toggleMute (handleVolumeChange (2/5)
        { initPlayer with isMuted := true })).isMuted = false) :=
  ⟨(c9_volume_output_invariant initPlayer (.select true stA) 0
      (by intro h; simp [initPlayer] at h)).1,
   (c9_volume_output_invariant { initPlayer with isMuted := true } .muteToggle (2/5)
      (by intro h; simp [initPlayer] at h)).1,
   (c9_volume_output_invariant { initPlayer with isMuted := true } .muteToggle (2/5)
      (by intro h; simp [initPlayer] at h)).2⟩

/-! ## Search orchestration of src/unnamed/part_000

The debounced search effect (lines 26 to 37) and performSearch
(lines 53 to 71) run on the single-threaded event loop.  We embed them
as a step function over an explicit state driven by three events:

* setQuery t text: the user edits the input at time t; React re-runs
  the effect, whose cleanup clears the previous debounce timer; a
  non-blank term schedules performSearch 500ms later, a blank term
  resets the displayed list to the catalog with no network call.
* timerFire t: the event loop delivers a timeout at time t; it acts
  only when a timer is pending and its deadline has passed (a cleared
  timeout never runs), in which case performSearch starts: it marks
  isSearching and issues the fetch, which suspends.
* response rid result: the fetch of request rid completes; the code
  applies the response unconditionally (there is no request token in
  the source): a success replaces the displayed list with the payload,
  a failure falls back to filtering the catalog with fallbackMatch.

inFlight tracks the issued, unanswered requests with their queries;
issuedQueries is a ghost log of every network request ever issued.
Events whose precondition fails (time running backwards, a fire with
no live timer, a response to an unknown request) leave the state
unchanged: they cannot occur on the real event loop. -/

structure SearchState where
  searchTerm : String
  stations : List Station
  allStations : List Station
  isSearching : Bool
  pendingTimer : Option (Nat × String)
  inFlight : List (Nat × String)
  nextRequestId : Nat
  issuedQueries : List String
  now : Nat
deriving DecidableEq, Repr

inductive SearchEvent where
  | setQuery (t : Nat) (text : String)
  | timerFire (t : Nat)
  | response (rid : Nat) (result : Except Unit (List Station))

def searchStep (s : SearchState) (e : SearchEvent) : SearchState :=
  match e with
  | .setQuery t text =>
    if s.now ≤ t then
      let s0 := { s with now := t, searchTerm := text, pendingTimer := none }
      if strTrim text ≠ "" then
        { s0 with pendingTimer := some (t + 500, text) }
      else
        { s0 with stations := s0.allStations, isSearching := false }
    else s
  | .timerFire t =>
    match s.pendingTimer with
    | some dq =>
      if s.now ≤ t ∧ dq.1 ≤ t then
        { s with
          now := t, pendingTimer := none, isSearching := true,
          inFlight := s.inFlight ++ [(s.nextRequestId, dq.2)],
          nextRequestId := s.nextRequestId + 1,
          issuedQueries := s.issuedQueries ++ [dq.2] }
      else s
    | none => s
  | .response rid result =>
    match s.inFlight.find? (fun p => p.1 == rid) with
    | some pr =>
      let s0 := { s with inFlight := s.inFlight.filter (fun p => !(p.1 == rid)) }
      match result with
      | .ok data => { s0 with stations := data, isSearching := false }
      | .error _ =>
        { s0 with
          stations := s0.allStations.filter (fallbackMatch pr.2),
          isSearching := false }
    | none => s

def runEvents (s : SearchState) : List SearchEvent → SearchState
  | [] => s
  | e :: es => runEvents (searchStep s e) es

/-- State right after the catalog fetch succeeds: both station lists
hold the catalog, nothing pending. -/
def initSearch (catalog : List Station) : SearchState :=
  { searchTerm := "", stations := catalog, allStations := catalog,
    isSearching := false, pendingTimer := none, inFlight := [],
    nextRequestId := 0, issuedQueries := [], now := 0 }

theorem runEvents_append (s : SearchState) (l1 l2 : List SearchEvent) :
    runEvents s (l1 ++ l2) = runEvents (runEvents s l1) l2 := by
  induction l1 generalizing s with
  | nil => rfl
  | cons e tl ih => simp [runEvents, ih]

/-! ## Helper lemmas about timer fires -/

theorem searchStep_fire_noneTimer (s : SearchState) (t : Nat)
    (h : s.pendingTimer = none) : searchStep s (.timerFire t) = s := by
  simp [searchStep, h]

theorem searchStep_fire_early (s : SearchState) (d : Nat) (q : String) (t : Nat)
    (h : s.pendingTimer = some (d, q)) (ht : t < d) :
    searchStep s (.timerFire t) = s := by
  simp only [searchStep, h]
  rw [if_neg]
  rintro ⟨-, h2⟩
  omega

def fireEvents (ts : List Nat) : List SearchEvent :=
  ts.map SearchEvent.timerFire

theorem runEvents_fires_noneTimer (s : SearchState) (fs : List Nat)
    (h : s.pendingTimer = none) : runEvents s (fireEvents fs) = s := by
  induction fs with
  | nil => rfl
  | cons a tl ih =>
    simp only [fireEvents, List.map_cons, runEvents]
    rw [searchStep_fire_noneTimer s a h]
    exact ih

theorem runEvents_fires_early (s : SearchState) (d : Nat) (q : String)
    (fs : List Nat) (h : s.pendingTimer = some (d, q))
    (hf : ∀ u ∈ fs, u < d) : runEvents s (fireEvents fs) = s := by
  induction fs with
  | nil => rfl
  | cons a tl ih =>
    simp only [fireEvents, List.map_cons, runEvents]
    rw [searchStep_fire_early s d q a h (hf a (by simp))]
    exact ih fun u hu => hf u (List.mem_cons_of_mem a hu)

/-- A run consisting only of timer fires can issue, at most, the query
held by the live timer. -/
theorem runEvents_fires_issued (s : SearchState) (d : Nat) (q : String)
    (fs : List Nat) (h : s.pendingTimer = some (d, q)) :
    ∀ x ∈ (runEvents s (fireEvents fs)).issuedQueries,
      x ∈ s.issuedQueries ∨ x = q := by
  induction fs generalizing s d with
  | nil =>
    intro x hx
    exact Or.inl hx
  | cons a tl ih =>
    intro x hx
    rw [show fireEvents (a :: tl) = SearchEvent.timerFire a :: fireEvents tl
      from rfl] at hx
    simp only [runEvents] at hx
    by_cases hc : s.now ≤ a ∧ d ≤ a
    · have hstep : searchStep s (.timerFire a) =
          { s with
            now := a, pendingTimer := none, isSearching := true,
            inFlight := s.inFlight ++ [(s.nextRequestId, q)],
            nextRequestId := s.nextRequestId + 1,
            issuedQueries := s.issuedQueries ++ [q] } := by
        simp [searchStep, h, hc]
      rw [hstep, runEvents_fires_noneTimer _ tl rfl] at hx
      simp only [List.mem_append, List.mem_singleton] at hx
      exact hx.imp_right fun hx => hx
    · have hstep : searchStep s (.timerFire a) = s := by
        simp only [searchStep, h]
        rw [if_neg hc]
      rw [hstep] at hx
      exact ih s d h x hx

/-! ## Burst traces for the debounce claim

A burst is a sequence of keystrokes, each represented by the timer
fires the event loop may attempt before it (at times no later than the
keystroke, since the loop delivers events in time order) followed by
the setQuery itself, and trailing fires after the last keystroke. -/

def burstTrace : List (List Nat × Nat × String) → List Nat → List SearchEvent
  | [], tailFires => fireEvents tailFires
  | (fs, t, q) :: rest, tailFires =>
    fireEvents fs ++ SearchEvent.setQuery t q :: burstTrace rest tailFires

/-- Side conditions on a burst after a keystroke at time tprev: each
later keystroke comes at or after the previous one and strictly before
its 500ms deadline, its preceding fires respect time order, and its
text is non-blank. -/
def burstSpaced : Nat → List (List Nat × Nat × String) → Bool
  | _, [] => true
  | tprev, (fs, t, q) :: rest =>
    decide (tprev ≤ t) && decide (t < tprev + 500) &&
      fs.all (fun u => decide (u ≤ t)) && (strTrim q != "") &&
      burstSpaced t rest

/-- Text of the last keystroke of a burst. -/
def lastQuery (default : String) : List (List Nat × Nat × String) → String
  | [] => default
  | (_, _, q) :: rest => lastQuery q rest

theorem burst_issued_only_last (segs : List (List Nat × Nat × String)) :
    ∀ (tailFires : List Nat) (s : SearchState) (tprev : Nat) (qprev : String),
      s.pendingTimer = some (tprev + 500, qprev) → s.now = tprev →
      burstSpaced tprev segs = true →
      ∀ x ∈ (runEvents s (burstTrace segs tailFires)).issuedQueries,
        x ∈ s.issuedQueries ∨ x = lastQuery qprev segs := by
  induction segs with
  | nil =>
    intro tailFires s tprev qprev hp _ _ x hx
    exact runEvents_fires_issued s _ _ tailFires hp x hx
  | cons seg rest ih =>
    obtain ⟨fs, t, q⟩ := seg
    intro tailFires s tprev qprev hp hn hok x hx
    simp only [burstSpaced, Bool.and_eq_true, decide_eq_true_eq,
      List.all_eq_true, bne_iff_ne] at hok
    obtain ⟨⟨⟨⟨h1, h2⟩, h3⟩, h4⟩, h5⟩ := hok
    simp only [burstTrace] at hx
    rw [runEvents_append, runEvents_fires_early s _ _ fs hp
      (fun u hu => lt_of_le_of_lt (by simpa using h3 u hu) h2)] at hx
    have hstep : searchStep s (.setQuery t q) =
        { s with
          now := t, searchTerm := q,
          pendingTimer := some (t + 500, q) } := by
      have hle : s.now ≤ t := hn ▸ h1
      simp [searchStep, hle, h4]
    simp only [runEvents] at hx
    rw [hstep] at hx
    exact ih tailFires
      { s with
        now := t, searchTerm := q, pendingTimer := some (t + 500, q) }
      t q rfl rfl h5 x hx

/-! ## Stale-response counterexample material -/

/-- Trace in which the older query (request 0, text aa) is answered
after the newer query (request 1, text bb): two keystrokes more than
500ms apart, both timers fire, the newer response lands first. -/
def staleTrace : List SearchEvent :=
  [ .setQuery 0 "aa", .timerFire 500, .setQuery 600 "bb", .timerFire 1100,
    .response 1 (.ok [stB]), .response 0 (.ok [stA]) ]

/-- Prefix of staleTrace with both requests still in flight. -/
def staleTracePrefix : List SearchEvent :=
  [ .setQuery 0 "aa", .timerFire 500, .setQuery 600 "bb", .timerFire 1100 ]

/-- C1 counterexample: performSearch carries no request token; in
staleTrace the response to the older query aa arrives after the
response to the newer query bb already landed, and the displayed list
ends as the older payload [stA], not the newer [stB]. -/
theorem c1_counterexample :
    (runEvents (initSearch [stA, stB]) staleTrace).stations = [stA] ∧
    [stA] ≠ ([stB] : List Station) := by
  constructor
  · decide
  · decide

/-- C1 amended: the code keeps no inFlightRequestToken; a successful
response to any request still in flight unconditionally replaces the
displayed list, so results apply in arrival order, and a late response
to an older query does overwrite a newer result.  Stale evaluations
are prevented only before issuance, by the debounce timer
cancellation. -/
theorem c1_amended_response_overwrites (s : SearchState) (rid : Nat)
    (pr : Nat × String) (data : List Station)
    (h : s.inFlight.find? (fun p => p.1 == rid) = some pr) :
    (searchStep s (.response rid (.ok data))).stations = data := by
  simp [searchStep, h]

/-- Witness for c1_amended_response_overwrites: with both requests of
staleTracePrefix in flight, the late success of request 0 overwrites
the displayed list with its payload. -/
theorem c1_amended_response_overwrites_witness :
    ((runEvents (initSearch [stA, stB]) staleTracePrefix).inFlight.find?
        (fun p => p.1 == 0) = some (0, "aa")) ∧
    (searchStep (runEvents (initSearch [stA, stB]) staleTracePrefix)
        (.response 0 (.ok [stA]))).stations = [stA] :=
  ⟨by decide,
   c1_amended_response_overwrites _ 0 (0, "aa") [stA] (by decide)⟩

/-- C5: in a burst of non-blank keystrokes each arriving strictly
within 500ms of the previous one, every network request the run ever
issues carries the text of the last keystroke: each earlier scheduled
evaluation is cancelled by the effect cleanup before its timer can
fire. -/
theorem c5_debounce_only_last (catalog : List Station) (fs0 : List Nat)
    (t0 : Nat) (q0 : String) (rest : List (List Nat × Nat × String))
    (tailFires : List Nat) (hq0 : strTrim q0 ≠ "")
    (hok : burstSpaced t0 rest = true) :
    ∀ x ∈ (runEvents (initSearch catalog)
        (burstTrace ((fs0, t0, q0) :: rest) tailFires)).issuedQueries,
      x = lastQuery q0 rest := by
  intro x hx
  simp only [burstTrace] at hx
  rw [runEvents_append, runEvents_fires_noneTimer _ fs0 rfl] at hx
  have hstep : searchStep (initSearch catalog) (.setQuery t0 q0) =
      { initSearch catalog with
        now := t0, searchTerm := q0,
        pendingTimer := some (t0 + 500, q0) } := by
    simp [searchStep, initSearch, hq0]
  simp only [runEvents] at hx
  rw [hstep] at hx
  have hlast := burst_issued_only_last rest tailFires
    { initSearch catalog with
      now := t0, searchTerm := q0, pendingTimer := some (t0 + 500, q0) }
    t0 q0 rfl rfl hok x hx
  simpa [initSearch] using hlast

/-- Witness for c5_debounce_only_last: a three-keystroke burst ja,
jaz, jazz at times 0, 300, 450 with stray fire attempts; the only
request the run issues is for jazz. -/
theorem c5_debounce_only_last_witness :
    (strTrim "ja" ≠ "" ∧
      burstSpaced 0 [([200], 300, "jaz"), ([400], 450, "jazz")] = true ∧
      "jazz" ∈ (runEvents (initSearch [stA])
        (burstTrace [([], 0, "ja"), ([200], 300, "jaz"), ([400], 450, "jazz")]
          [950, 1000])).issuedQueries) ∧
    "jazz" = lastQuery "ja" [([200], 300, "jaz"), ([400], 450, "jazz")] :=
  ⟨⟨by decide, by decide, by decide⟩,
   c5_debounce_only_last [stA] [] 0 "ja"
     [([200], 300, "jaz"), ([400], 450, "jazz")] [950, 1000]
     (by decide) (by decide) "jazz" (by decide)⟩

/-- C6: a blank (empty or whitespace-only) setQuery takes effect in
the very step it arrives, with no debounce delay: the effect cleanup
cancels any pending scheduled evaluation, the displayed list becomes
the full unfiltered catalog, and no network request is issued. -/
theorem c6_blank_query_resets (s : SearchState) (t : Nat) (text : String)
    (ht : s.now ≤ t) (hq : strTrim text = "") :
    (searchStep s (.setQuery t text)).pendingTimer = none ∧
    (searchStep s (.setQuery t text)).stations = s.allStations ∧
    (searchStep s (.setQuery t text)).issuedQueries = s.issuedQueries ∧
    (searchStep s (.setQuery t text)).inFlight = s.inFlight ∧
    (searchStep s (.setQuery t text)).nextRequestId = s.nextRequestId := by
  simp [searchStep, ht, hq]

/-- State with a pending debounce timer, used to witness that a blank
keystroke cancels it. -/
def pendingSearchState : SearchState :=
  { initSearch [stA, stB] with
    searchTerm := "ab", pendingTimer := some (800, "ab"), now := 300 }

/-- Witness for c6_blank_query_resets: a whitespace-only keystroke at
time 301 cancels the timer pending at deadline 800, restores the
catalog and issues nothing. -/
theorem c6_blank_query_resets_witness :
    (pendingSearchState.now ≤ 301 ∧ strTrim "  " = "") ∧
    ((searchStep pendingSearchState (.setQuery 301 "  ")).pendingTimer = none ∧
     (searchStep pendingSearchState (.setQuery 301 "  ")).stations =
       pendingSearchState.allStations ∧
     (searchStep pendingSearchState (.setQuery 301 "  ")).issuedQueries =
       pendingSearchState.issuedQueries ∧
     (searchStep pendingSearchState (.setQuery 301 "  ")).inFlight =
       pendingSearchState.inFlight ∧
     (searchStep pendingSearchState (.setQuery 301 "  ")).nextRequestId =
       pendingSearchState.nextRequestId) :=
  ⟨⟨by decide, by decide⟩,
   c6_blank_query_resets pendingSearchState 301 "  " (by decide) (by decide)⟩

/-- C7: a transport failure of an in-flight search request is absorbed
by the catch block: the response step is a total state transformation
(no error reaches the caller) that sets the displayed list to the full
catalog filtered by the local fallback policy and clears isSearching. -/
theorem c7_transport_failure_fallback (s : SearchState) (rid : Nat)
    (pr : Nat × String)
    (h : s.inFlight.find? (fun p => p.1 == rid) = some pr) :
    (searchStep s (.response rid (.error ()))).stations =
      s.allStations.filter (fallbackMatch pr.2) ∧
    (searchStep s (.response rid (.error ()))).isSearching = false := by
  simp [searchStep, h]

/-- Trace issuing a single search request for the query news. -/
def newsTracePrefix : List SearchEvent :=
  [ .setQuery 0 "news", .timerFire 500 ]

/-- Witness for c7_transport_failure_fallback: the failing news search
over the sample catalog degrades to the locally filtered match list
[stB], which is not empty and not an error. -/
theorem c7_transport_failure_fallback_witness :
    ((runEvents (initSearch [stA, stB]) newsTracePrefix).inFlight.find?
        (fun p => p.1 == 0) = some (0, "news")) ∧
    (searchStep (runEvents (initSearch [stA, stB]) newsTracePrefix)
        (.response 0 (.error ()))).stations =
      List.filter (fallbackMatch "news") [stA, stB] ∧
    List.filter (fallbackMatch "news") [stA, stB] = [stB] ∧
    ([stB] : List Station) ≠ [] :=
  ⟨by decide,
   (c7_transport_failure_fallback _ 0 (0, "news") (by decide)).1,
   by decide, by decide⟩

end RadioStation
